import Mathlib

/-!
# Verification of the mqtt2prom message-ingestion pipeline

Shallow embedding of the mqtt2prom core (a Rust bridge from Shelly MQTT
telemetry to Prometheus gauges) and proofs about it.

Modelling conventions:
* Rust `f64` values are modelled as exact rationals (`ℚ`); the `as i64`
  casts of the source truncate toward zero, modelled by `f64toInt` below.
  For every concrete value appearing in the claims the IEEE-double result
  of the source's scaling coincides with the exact-rational result.
* JSON payloads are modelled at the level of decoded JSON values (`Json`
  below); the byte-level tokenizer of the `serde_json` library is outside
  the repository.  A structural decode failure is any `Json` value the
  serde-derived decoders (embedded below, field by field) reject.
* The Prometheus gauge families are modelled as partial maps from label
  tuples to integer cells (`none` = series never created).
-/

/-- Truncation toward zero of a rational, the behaviour of Rust's
`f64 as i64` cast for in-range values. -/
def f64toInt (q : ℚ) : ℤ := if 0 ≤ q then ⌊q⌋ else ⌈q⌉

/-! ## parser.rs: extract_device_id -/

/-- Helper mirroring `src.rfind('-')` followed by `src[idx+1..]`:
returns the characters after the last `'-'`, or `none` when no `'-'`
occurs. -/
def afterLastDash : List Char → Option (List Char)
  | [] => none
  | c :: cs =>
    match afterLastDash cs with
    | some r => some r
    | none => if c = '-' then some cs else none

/-- `extract_device_id` (parser.rs lines 103–109): substring after the
last `-`; the whole string when no `-` exists. -/
def extract_device_id (src : String) : String :=
  match afterLastDash src.data with
  | some r => String.mk r
  | none => src

/-! ## extract_device_from_topic

`metrics.rs` line 6 imports `extract_device_from_topic` from the parser
module, but no definition appears in the repository's sources.

Modelled from the spec: `deriveDeviceIdFromTopic(topic) -> Option<String>`
— given a topic of the form `<prefix>/<prefix>/<deviceName>/events/rpc`,
returns the third-from-last path segment; returns nothing if the topic
does not match this shape. -/

/-- Split a character list on `'/'`, mirroring splitting a topic string
into its path segments (every string is the concatenation of the
segments interleaved with `'/'`, and no segment contains `'/'`). -/
def splitSlash : List Char → List (List Char)
  | [] => [[]]
  | c :: cs =>
    match splitSlash cs with
    | [] => if c = '/' then [[], []] else [[c]]
    | s :: ss => if c = '/' then [] :: s :: ss else (c :: s) :: ss

/-- Modelled from the spec: missing `extract_device_from_topic`
(imported at metrics.rs line 6).  A topic matching
`<prefix>/<prefix>/<deviceName>/events/rpc` — exactly five path
segments, the last two being `events` and `rpc` — yields the
third-from-last segment; anything else yields `none`. -/
def extract_device_from_topic (topic : String) : Option String :=
  match splitSlash topic.data with
  | [_, _, d, e, r] =>
    if e = "events".data ∧ r = "rpc".data then some (String.mk d) else none
  | _ => none

/-! ### Basic facts about `afterLastDash` and `splitSlash` -/

theorem afterLastDash_eq_none (l : List Char) (h : '-' ∉ l) :
    afterLastDash l = none := by
  induction l with
  | nil => rfl
  | cons c cs ih =>
    simp only [List.mem_cons, not_or] at h
    simp only [afterLastDash, ih h.2]
    simp [Ne.symm h.1]

theorem afterLastDash_append_cons (a b : List Char) (h : '-' ∉ b) :
    afterLastDash (a ++ '-' :: b) = some b := by
  induction a with
  | nil => simp [afterLastDash, afterLastDash_eq_none b h]
  | cons c cs ih => simp [afterLastDash, ih]

theorem splitSlash_ne_nil (l : List Char) : splitSlash l ≠ [] := by
  cases l with
  | nil => simp [splitSlash]
  | cons c cs =>
    simp only [splitSlash]
    rcases hs : splitSlash cs with _ | ⟨s, ss⟩ <;>
      simp only [hs] <;> by_cases hc : c = '/' <;> simp [hc]

theorem splitSlash_no_slash (l : List Char) (h : '/' ∉ l) :
    splitSlash l = [l] := by
  induction l with
  | nil => rfl
  | cons c cs ih =>
    simp only [List.mem_cons, not_or] at h
    simp only [splitSlash, ih h.2]
    rw [if_neg (fun hc => h.1 hc.symm)]

theorem splitSlash_append_slash (a b : List Char) (h : '/' ∉ a) :
    splitSlash (a ++ '/' :: b) = a :: splitSlash b := by
  induction a with
  | nil =>
    simp only [List.nil_append, splitSlash]
    rcases hs : splitSlash b with _ | ⟨s, ss⟩
    · exact absurd hs (splitSlash_ne_nil b)
    · simp
  | cons c cs ih =>
    simp only [List.mem_cons, not_or] at h
    have hih := ih h.2
    show splitSlash (c :: (cs ++ '/' :: b)) = _
    simp only [splitSlash, hih]
    simp [Ne.symm h.1]

/-! ## Message model (parser.rs)

`MessageParams` in parser.rs declares `switch` (wire key `"switch:0"`),
`wifi` and `sys`.  metrics.rs additionally consumes sensor sections
(`temperature`, `humidity`, `devicepower`) whose declarations are
missing from the repository's parser module; those three fields are
modelled from the spec (§3 sections `temperatureSensor`,
`humiditySensor`, `devicePower`; wire keys `temperature:0`,
`humidity:0`, `devicepower:0` per §4.2 and the metrics.rs comments). -/

inductive MessageMethod where
  | NotifyFullStatus
  | NotifyStatus
  | NotifyEvent
deriving DecidableEq, Repr

structure EnergyData where
  total : ℚ
  by_minute : Option (List ℚ)
  minute_ts : Option ℤ
deriving DecidableEq, Repr

structure TemperatureData where
  tc : ℚ
  tf : ℚ
deriving DecidableEq, Repr

structure SwitchData where
  id : ℕ
  output : Option Bool
  apower : Option ℚ
  voltage : Option ℚ
  current : Option ℚ
  aenergy : EnergyData
  temperature : Option TemperatureData
deriving DecidableEq, Repr

structure WifiData where
  rssi : ℤ
deriving DecidableEq, Repr

structure SysData where
  uptime : Option ℤ
deriving DecidableEq, Repr

/-- Modelled from the spec: relative-humidity section (`humiditySensor`,
`sensor.humidity.rh`), declaration missing from parser.rs but consumed
by metrics.rs. -/
structure HumidityData where
  rh : ℚ
deriving DecidableEq, Repr

/-- Modelled from the spec: battery reading (`devicePower.battery`,
percent and voltage), declaration missing from parser.rs but consumed
by metrics.rs. -/
structure BatteryData where
  voltage : ℚ
  percent : ℚ
deriving DecidableEq, Repr

/-- Modelled from the spec: device-power section (`devicePower`),
declaration missing from parser.rs but consumed by metrics.rs. -/
structure DevicePowerData where
  battery : Option BatteryData
deriving DecidableEq, Repr

structure MessageParams where
  switch : Option SwitchData
  wifi : Option WifiData
  sys : Option SysData
  temperature : Option TemperatureData
  humidity : Option HumidityData
  devicepower : Option DevicePowerData
deriving DecidableEq, Repr

structure ShellyMessage where
  src : String
  dst : Option String
  method : MessageMethod
  params : MessageParams
deriving DecidableEq, Repr

/-! ## JSON values and the serde-derived decoders -/

/-- A decoded JSON value.  Numbers are exact rationals (see header). -/
inductive Json where
  | null
  | bool (b : Bool)
  | num (q : ℚ)
  | str (s : String)
  | arr (elems : List Json)
  | obj (fields : List (String × Json))

/-- First binding of a key in a JSON object's field list. -/
def fieldLookup (key : String) : List (String × Json) → Option Json
  | [] => none
  | (k, v) :: rest => if k = key then some v else fieldLookup key rest

def asNum : Json → Option ℚ
  | .num q => some q
  | _ => none

def asBool : Json → Option Bool
  | .bool b => some b
  | _ => none

def asStr : Json → Option String
  | .str s => some s
  | _ => none

/-- Rust `u8`: a JSON integer in `[0, 255]`. -/
def asU8 : Json → Option ℕ
  | .num q => if q.den = 1 ∧ 0 ≤ q.num ∧ q.num ≤ 255 then some q.num.toNat else none
  | _ => none

/-- Rust `i64`: a JSON integer in `[-2^63, 2^63)`. -/
def asI64 : Json → Option ℤ
  | .num q => if q.den = 1 ∧ -(2 ^ 63) ≤ q.num ∧ q.num < 2 ^ 63 then some q.num else none
  | _ => none

/-- Rust `i32`: a JSON integer in `[-2^31, 2^31)`. -/
def asI32 : Json → Option ℤ
  | .num q => if q.den = 1 ∧ -(2 ^ 31) ≤ q.num ∧ q.num < 2 ^ 31 then some q.num else none
  | _ => none

def asNumList : Json → Option (List ℚ)
  | .arr elems => elems.mapM asNum
  | _ => none

/-- serde semantics of a required struct field: the key must be present
and its value must decode. -/
def reqField (decode : Json → Option α) (key : String)
    (fields : List (String × Json)) : Option α :=
  (fieldLookup key fields).bind decode

def isNull : Json → Bool
  | .null => true
  | _ => false

/-- serde semantics of an `Option<T>` struct field: absent or `null`
gives `none`; a present non-null value must decode. -/
def optField (decode : Json → Option α) (key : String)
    (fields : List (String × Json)) : Option (Option α) :=
  match fieldLookup key fields with
  | none => some none
  | some j => if isNull j then some none else (decode j).map some

/-- serde-derived decoder for `EnergyData` (parser.rs lines 61–68):
`total` required, `by_minute` and `minute_ts` optional. -/
def decodeEnergyData : Json → Option EnergyData
  | .obj f => do
    let total ← reqField asNum "total" f
    let by_minute ← optField asNumList "by_minute" f
    let minute_ts ← optField asI64 "minute_ts" f
    pure ⟨total, by_minute, minute_ts⟩
  | _ => none

/-- serde-derived decoder for `TemperatureData` (parser.rs lines 70–76):
wire keys `tC` and `tF`, both required. -/
def decodeTemperatureData : Json → Option TemperatureData
  | .obj f => do
    let tc ← reqField asNum "tC" f
    let tf ← reqField asNum "tF" f
    pure ⟨tc, tf⟩
  | _ => none

/-- serde-derived decoder for `SwitchData` (parser.rs lines 45–59):
`id` and `aenergy` required, everything else optional. -/
def decodeSwitchData : Json → Option SwitchData
  | .obj f => do
    let id ← reqField asU8 "id" f
    let output ← optField asBool "output" f
    let apower ← optField asNum "apower" f
    let voltage ← optField asNum "voltage" f
    let current ← optField asNum "current" f
    let aenergy ← reqField decodeEnergyData "aenergy" f
    let temperature ← optField decodeTemperatureData "temperature" f
    pure ⟨id, output, apower, voltage, current, aenergy, temperature⟩
  | _ => none

/-- serde-derived decoder for `WifiData` (parser.rs lines 78–81). -/
def decodeWifiData : Json → Option WifiData
  | .obj f => do
    let rssi ← reqField asI32 "rssi" f
    pure ⟨rssi⟩
  | _ => none

/-- serde-derived decoder for `SysData` (parser.rs lines 83–87). -/
def decodeSysData : Json → Option SysData
  | .obj f => do
    let uptime ← optField asI64 "uptime" f
    pure ⟨uptime⟩
  | _ => none

/-- Modelled from the spec: decoder for the humidity section
(`sensor.humidity.rh`), declaration missing from parser.rs. -/
def decodeHumidityData : Json → Option HumidityData
  | .obj f => do
    let rh ← reqField asNum "rh" f
    pure ⟨rh⟩
  | _ => none

/-- Modelled from the spec: decoder for the battery reading
(wire keys `V` and `percent`), declaration missing from parser.rs. -/
def decodeBatteryData : Json → Option BatteryData
  | .obj f => do
    let voltage ← reqField asNum "V" f
    let percent ← reqField asNum "percent" f
    pure ⟨voltage, percent⟩
  | _ => none

/-- Modelled from the spec: decoder for the device-power section,
declaration missing from parser.rs. -/
def decodeDevicePowerData : Json → Option DevicePowerData
  | .obj f => do
    let battery ← optField decodeBatteryData "battery" f
    pure ⟨battery⟩
  | _ => none

/-- serde-derived decoder for `MessageParams` (parser.rs lines 35–43):
the switch sub-record is read from the renamed wire key `"switch:0"`
only; unknown keys are ignored (serde default).  The three sensor
fields are modelled from the spec (wire keys `temperature:0`,
`humidity:0`, `devicepower:0`). -/
def decodeMessageParams : Json → Option MessageParams
  | .obj f => do
    let switch ← optField decodeSwitchData "switch:0" f
    let wifi ← optField decodeWifiData "wifi" f
    let sys ← optField decodeSysData "sys" f
    let temperature ← optField decodeTemperatureData "temperature:0" f
    let humidity ← optField decodeHumidityData "humidity:0" f
    let devicepower ← optField decodeDevicePowerData "devicepower:0" f
    pure ⟨switch, wifi, sys, temperature, humidity, devicepower⟩
  | _ => none

/-- serde-derived decoder for `MessageMethod` (parser.rs lines 17–24):
PascalCase string tags. -/
def decodeMessageMethod : Json → Option MessageMethod
  | .str s =>
    if s = "NotifyFullStatus" then some .NotifyFullStatus
    else if s = "NotifyStatus" then some .NotifyStatus
    else if s = "NotifyEvent" then some .NotifyEvent
    else none
  | _ => none

/-- serde-derived decoder for `ShellyMessage` (parser.rs lines 26–33):
`src`, `method`, `params` required, `dst` optional. -/
def decodeShellyMessage : Json → Option ShellyMessage
  | .obj f => do
    let src ← reqField asStr "src" f
    let dst ← optField asStr "dst" f
    let method ← reqField decodeMessageMethod "method" f
    let params ← reqField decodeMessageParams "params" f
    pure ⟨src, dst, method, params⟩
  | _ => none

/-! ## parser.rs: parse_message -/

/-- `ParserError` (parser.rs lines 4–15).  The structural-failure
variant drops the library-internal `serde_json::Error` detail. -/
inductive ParserError where
  | JsonError
  | IgnoredMessage (s : String)
  | MissingField (s : String)
deriving DecidableEq, Repr

/-- `parse_message` (parser.rs lines 90–99): structural decode, then the
post-decode policy rejecting `NotifyEvent` messages. -/
def parse_message (json : Json) : Except ParserError ShellyMessage :=
  match decodeShellyMessage json with
  | none => .error .JsonError
  | some msg =>
    if msg.method = .NotifyEvent then .error (.IgnoredMessage "NotifyEvent")
    else .ok msg

/-- `should_process` (parser.rs lines 113–115). -/
def should_process (method : MessageMethod) : Bool :=
  method ≠ MessageMethod.NotifyEvent

/-! ## metrics.rs: label sets, gauge families and the metric mapper -/

/-- `DeviceLabels` (metrics.rs lines 8–12). -/
structure DeviceLabels where
  device : String
  switch : String
deriving DecidableEq, Repr

/-- `DeviceOnlyLabels` (metrics.rs lines 14–17). -/
structure DeviceOnlyLabels where
  device : String
deriving DecidableEq, Repr

/-- One Prometheus gauge family: a partial map from a label tuple to its
mutable integer cell (`none` = the series was never created). -/
def GaugeFamily (L : Type) : Type := L → Option ℤ

/-- `get_or_create(&labels).set(v)`: create the cell if needed and
overwrite its value. -/
def GaugeFamily.set {L : Type} [DecidableEq L] (fam : GaugeFamily L)
    (l : L) (v : ℤ) : GaugeFamily L :=
  fun l' => if l' = l then some v else fam l'

/-- `ShellyMetrics` (metrics.rs lines 19–30): the ten gauge families. -/
structure ShellyMetrics where
  power : GaugeFamily DeviceLabels
  voltage : GaugeFamily DeviceLabels
  current : GaugeFamily DeviceLabels
  energy_total : GaugeFamily DeviceLabels
  switch_state : GaugeFamily DeviceLabels
  temperature : GaugeFamily DeviceOnlyLabels
  humidity : GaugeFamily DeviceOnlyLabels
  battery_percent : GaugeFamily DeviceOnlyLabels
  battery_voltage : GaugeFamily DeviceOnlyLabels
  wifi_rssi : GaugeFamily DeviceOnlyLabels

/-- `ShellyMetrics::new` (metrics.rs lines 33–117): every family starts
empty. -/
def ShellyMetrics.new : ShellyMetrics :=
  ⟨fun _ => none, fun _ => none, fun _ => none, fun _ => none, fun _ => none,
   fun _ => none, fun _ => none, fun _ => none, fun _ => none, fun _ => none⟩

/-- Switch block of `update_from_message` (metrics.rs lines 125–175):
per-circuit gauges on `{device, switch}` labels, plus the embedded
switch temperature on `{device}`.  metrics.rs line 153 guards on the
energy object, but parser.rs declares `aenergy` as a mandatory
(non-optional) field of the switch record, so the energy update always
fires for a present switch section. -/
def updSwitchBlock (device_id : String) (m : ShellyMetrics) :
    Option SwitchData → ShellyMetrics
  | none => m
  | some sw =>
    let labels : DeviceLabels := ⟨device_id, toString sw.id⟩
    let ma :=
      match sw.apower with
      | some apower => { m with power := m.power.set labels (f64toInt apower) }
      | none => m
    let mb :=
      match sw.voltage with
      | some voltage =>
        { ma with voltage := ma.voltage.set labels (f64toInt (voltage * 10)) }
      | none => ma
    let mc :=
      match sw.current with
      | some current =>
        { mb with current := mb.current.set labels (f64toInt (current * 1000)) }
      | none => mb
    let md :=
      { mc with
        energy_total := mc.energy_total.set labels (f64toInt (sw.aenergy.total * 10)) }
    let mo :=
      match sw.output with
      | some output =>
        { md with switch_state := md.switch_state.set labels (if output then 1 else 0) }
      | none => md
    match sw.temperature with
    | some temp =>
      { mo with temperature := mo.temperature.set ⟨device_id⟩ (f64toInt (temp.tc * 10)) }
    | none => mo

/-- H&T sensor temperature block (metrics.rs lines 177–185). -/
def updSensTempBlock (device_id : String) (m : ShellyMetrics) :
    Option TemperatureData → ShellyMetrics
  | some temp =>
    { m with temperature := m.temperature.set ⟨device_id⟩ (f64toInt (temp.tc * 10)) }
  | none => m

/-- H&T sensor humidity block (metrics.rs lines 187–195). -/
def updHumidityBlock (device_id : String) (m : ShellyMetrics) :
    Option HumidityData → ShellyMetrics
  | some humidity =>
    { m with humidity := m.humidity.set ⟨device_id⟩ (f64toInt (humidity.rh * 10)) }
  | none => m

/-- Device-power battery block (metrics.rs lines 197–210). -/
def updDevicePowerBlock (device_id : String) (m : ShellyMetrics) :
    Option DevicePowerData → ShellyMetrics
  | some dp =>
    match dp.battery with
    | some battery =>
      { m with
        battery_percent := m.battery_percent.set ⟨device_id⟩ (f64toInt battery.percent)
        battery_voltage :=
          m.battery_voltage.set ⟨device_id⟩ (f64toInt (battery.voltage * 100)) }
    | none => m
  | none => m

/-- WiFi RSSI block (metrics.rs lines 212–220). -/
def updWifiBlock (device_id : String) (m : ShellyMetrics) :
    Option WifiData → ShellyMetrics
  | some wifi => { m with wifi_rssi := m.wifi_rssi.set ⟨device_id⟩ wifi.rssi }
  | none => m

/-- Device identity resolved once per message (metrics.rs lines 121–123):
topic-derived name when the topic is supplied and matches, MAC suffix of
`src` otherwise. -/
def resolveDeviceId (msg : ShellyMessage) (topic : Option String) : String :=
  (topic.bind extract_device_from_topic).getD (extract_device_id msg.src)

/-- `update_from_message` (metrics.rs lines 119–221): resolve the device
identity once, then run the section blocks in source order. -/
def ShellyMetrics.update_from_message (m : ShellyMetrics)
    (msg : ShellyMessage) (topic : Option String) : ShellyMetrics :=
  let device_id := resolveDeviceId msg topic
  let m1 := updSwitchBlock device_id m msg.params.switch
  let m2 := updSensTempBlock device_id m1 msg.params.temperature
  let m3 := updHumidityBlock device_id m2 msg.params.humidity
  let m4 := updDevicePowerBlock device_id m3 msg.params.devicepower
  updWifiBlock device_id m4 msg.params.wifi

/-! ## mqtt.rs: the message handler -/

/-- `handle_message` (mqtt.rs lines 40–71): only topics ending in
`/events/rpc` are processed; a parse failure leaves the metrics
untouched.  The payload is modelled post-UTF-8-decoding (an invalid
encoding is dropped at the byte level, also leaving the metrics
untouched).  Note the call at mqtt.rs line 65 passes only the message —
the originating topic is not handed to the mapper, so the mapper runs
with no topic. -/
def MqttHandler.handle_message (m : ShellyMetrics) (topic : String)
    (payload : Json) : ShellyMetrics :=
  if ("/events/rpc").data.isSuffixOf topic.data then
    match parse_message payload with
    | .ok msg =>
      if msg.method = .NotifyEvent then m
      else m.update_from_message msg none
    | .error _ => m
  else m

/-! ## mqtt.rs: the connection supervisor loop (`run`, lines 74–117)

One iteration of the outer loop: attempt to construct the client
(a connect attempt); on failure sleep 5 s and restart.  Otherwise
subscribe; on failure sleep 5 s and restart.  Otherwise pump events
until a disconnect or transport error breaks the inner loop, then sleep
5 s and restart.  The loop has no exit and no iteration is fatal; real
time is modelled by recording the sleep calls as trace events. -/

inductive SupervisorEvent where
  | connectAttempt
  | subscribeAttempt
  | streaming
  | delaySeconds (n : ℕ)
deriving DecidableEq, Repr

/-- How one iteration of the outer `run` loop ends. -/
inductive IterationOutcome where
  | connectFail
  | subscribeFail
  | streamThenDrop
deriving DecidableEq, Repr

/-- Events of one iteration of the outer loop, in source order
(mqtt.rs lines 75–117).  Every iteration starts with a connect attempt
and ends with the fixed 5-second sleep before control returns to the
top of the loop (the Disconnected state). -/
def runIteration : IterationOutcome → List SupervisorEvent
  | .connectFail => [.connectAttempt, .delaySeconds 5]
  | .subscribeFail => [.connectAttempt, .subscribeAttempt, .delaySeconds 5]
  | .streamThenDrop =>
    [.connectAttempt, .subscribeAttempt, .streaming, .delaySeconds 5]

/-- Trace of the supervisor across a finite prefix of iterations. -/
def runTrace : List IterationOutcome → List SupervisorEvent
  | [] => []
  | o :: rest => runIteration o ++ runTrace rest

/-! ## Per-gauge write functions of the mapper

Each function below is the effect of one source block of
`update_from_message` on one gauge family; the lemmas that follow prove
that the blocks decompose into them. -/

def swPowerUpd (d : String) (osw : Option SwitchData) :
    GaugeFamily DeviceLabels → GaugeFamily DeviceLabels :=
  fun f =>
    match osw with
    | some sw =>
      match sw.apower with
      | some p => f.set ⟨d, toString sw.id⟩ (f64toInt p)
      | none => f
    | none => f

def swVoltageUpd (d : String) (osw : Option SwitchData) :
    GaugeFamily DeviceLabels → GaugeFamily DeviceLabels :=
  fun f =>
    match osw with
    | some sw =>
      match sw.voltage with
      | some v => f.set ⟨d, toString sw.id⟩ (f64toInt (v * 10))
      | none => f
    | none => f

def swCurrentUpd (d : String) (osw : Option SwitchData) :
    GaugeFamily DeviceLabels → GaugeFamily DeviceLabels :=
  fun f =>
    match osw with
    | some sw =>
      match sw.current with
      | some c => f.set ⟨d, toString sw.id⟩ (f64toInt (c * 1000))
      | none => f
    | none => f

def swEnergyUpd (d : String) (osw : Option SwitchData) :
    GaugeFamily DeviceLabels → GaugeFamily DeviceLabels :=
  fun f =>
    match osw with
    | some sw => f.set ⟨d, toString sw.id⟩ (f64toInt (sw.aenergy.total * 10))
    | none => f

def swStateUpd (d : String) (osw : Option SwitchData) :
    GaugeFamily DeviceLabels → GaugeFamily DeviceLabels :=
  fun f =>
    match osw with
    | some sw =>
      match sw.output with
      | some b => f.set ⟨d, toString sw.id⟩ (if b then 1 else 0)
      | none => f
    | none => f

def swTempUpd (d : String) (osw : Option SwitchData) :
    GaugeFamily DeviceOnlyLabels → GaugeFamily DeviceOnlyLabels :=
  fun f =>
    match osw with
    | some sw =>
      match sw.temperature with
      | some te => f.set ⟨d⟩ (f64toInt (te.tc * 10))
      | none => f
    | none => f

def sensTempUpd (d : String) (ot : Option TemperatureData) :
    GaugeFamily DeviceOnlyLabels → GaugeFamily DeviceOnlyLabels :=
  fun f =>
    match ot with
    | some tp => f.set ⟨d⟩ (f64toInt (tp.tc * 10))
    | none => f

def humUpd (d : String) (oh : Option HumidityData) :
    GaugeFamily DeviceOnlyLabels → GaugeFamily DeviceOnlyLabels :=
  fun f =>
    match oh with
    | some hu => f.set ⟨d⟩ (f64toInt (hu.rh * 10))
    | none => f

def batPercentUpd (d : String) (odp : Option DevicePowerData) :
    GaugeFamily DeviceOnlyLabels → GaugeFamily DeviceOnlyLabels :=
  fun f =>
    match odp with
    | some dp =>
      match dp.battery with
      | some b => f.set ⟨d⟩ (f64toInt b.percent)
      | none => f
    | none => f

def batVoltageUpd (d : String) (odp : Option DevicePowerData) :
    GaugeFamily DeviceOnlyLabels → GaugeFamily DeviceOnlyLabels :=
  fun f =>
    match odp with
    | some dp =>
      match dp.battery with
      | some b => f.set ⟨d⟩ (f64toInt (b.voltage * 100))
      | none => f
    | none => f

def wifiUpd (d : String) (ow : Option WifiData) :
    GaugeFamily DeviceOnlyLabels → GaugeFamily DeviceOnlyLabels :=
  fun f =>
    match ow with
    | some w => f.set ⟨d⟩ w.rssi
    | none => f

/-! ### The blocks decompose into the per-gauge write functions -/

theorem updSwitchBlock_fields (d : String) (m : ShellyMetrics)
    (osw : Option SwitchData) :
    (updSwitchBlock d m osw).power = swPowerUpd d osw m.power ∧
    (updSwitchBlock d m osw).voltage = swVoltageUpd d osw m.voltage ∧
    (updSwitchBlock d m osw).current = swCurrentUpd d osw m.current ∧
    (updSwitchBlock d m osw).energy_total = swEnergyUpd d osw m.energy_total ∧
    (updSwitchBlock d m osw).switch_state = swStateUpd d osw m.switch_state ∧
    (updSwitchBlock d m osw).temperature = swTempUpd d osw m.temperature ∧
    (updSwitchBlock d m osw).humidity = m.humidity ∧
    (updSwitchBlock d m osw).battery_percent = m.battery_percent ∧
    (updSwitchBlock d m osw).battery_voltage = m.battery_voltage ∧
    (updSwitchBlock d m osw).wifi_rssi = m.wifi_rssi := by
  rcases osw with _ | ⟨id, out, ap, vo, cu, ae, te⟩
  · exact ⟨rfl, rfl, rfl, rfl, rfl, rfl, rfl, rfl, rfl, rfl⟩
  · rcases te with _ | t <;> rcases out with _ | o <;> rcases cu with _ | c <;>
      rcases vo with _ | v <;> rcases ap with _ | a <;>
      exact ⟨rfl, rfl, rfl, rfl, rfl, rfl, rfl, rfl, rfl, rfl⟩

theorem updSensTempBlock_fields (d : String) (m : ShellyMetrics)
    (ot : Option TemperatureData) :
    (updSensTempBlock d m ot).power = m.power ∧
    (updSensTempBlock d m ot).voltage = m.voltage ∧
    (updSensTempBlock d m ot).current = m.current ∧
    (updSensTempBlock d m ot).energy_total = m.energy_total ∧
    (updSensTempBlock d m ot).switch_state = m.switch_state ∧
    (updSensTempBlock d m ot).temperature = sensTempUpd d ot m.temperature ∧
    (updSensTempBlock d m ot).humidity = m.humidity ∧
    (updSensTempBlock d m ot).battery_percent = m.battery_percent ∧
    (updSensTempBlock d m ot).battery_voltage = m.battery_voltage ∧
    (updSensTempBlock d m ot).wifi_rssi = m.wifi_rssi := by
  rcases ot with _ | t <;> exact ⟨rfl, rfl, rfl, rfl, rfl, rfl, rfl, rfl, rfl, rfl⟩

theorem updHumidityBlock_fields (d : String) (m : ShellyMetrics)
    (oh : Option HumidityData) :
    (updHumidityBlock d m oh).power = m.power ∧
    (updHumidityBlock d m oh).voltage = m.voltage ∧
    (updHumidityBlock d m oh).current = m.current ∧
    (updHumidityBlock d m oh).energy_total = m.energy_total ∧
    (updHumidityBlock d m oh).switch_state = m.switch_state ∧
    (updHumidityBlock d m oh).temperature = m.temperature ∧
    (updHumidityBlock d m oh).humidity = humUpd d oh m.humidity ∧
    (updHumidityBlock d m oh).battery_percent = m.battery_percent ∧
    (updHumidityBlock d m oh).battery_voltage = m.battery_voltage ∧
    (updHumidityBlock d m oh).wifi_rssi = m.wifi_rssi := by
  rcases oh with _ | hu <;> exact ⟨rfl, rfl, rfl, rfl, rfl, rfl, rfl, rfl, rfl, rfl⟩

theorem updDevicePowerBlock_fields (d : String) (m : ShellyMetrics)
    (odp : Option DevicePowerData) :
    (updDevicePowerBlock d m odp).power = m.power ∧
    (updDevicePowerBlock d m odp).voltage = m.voltage ∧
    (updDevicePowerBlock d m odp).current = m.current ∧
    (updDevicePowerBlock d m odp).energy_total = m.energy_total ∧
    (updDevicePowerBlock d m odp).switch_state = m.switch_state ∧
    (updDevicePowerBlock d m odp).temperature = m.temperature ∧
    (updDevicePowerBlock d m odp).humidity = m.humidity ∧
    (updDevicePowerBlock d m odp).battery_percent
      = batPercentUpd d odp m.battery_percent ∧
    (updDevicePowerBlock d m odp).battery_voltage
      = batVoltageUpd d odp m.battery_voltage ∧
    (updDevicePowerBlock d m odp).wifi_rssi = m.wifi_rssi := by
  rcases odp with _ | ⟨ob⟩
  · exact ⟨rfl, rfl, rfl, rfl, rfl, rfl, rfl, rfl, rfl, rfl⟩
  · rcases ob with _ | b <;> exact ⟨rfl, rfl, rfl, rfl, rfl, rfl, rfl, rfl, rfl, rfl⟩

theorem updWifiBlock_fields (d : String) (m : ShellyMetrics)
    (ow : Option WifiData) :
    (updWifiBlock d m ow).power = m.power ∧
    (updWifiBlock d m ow).voltage = m.voltage ∧
    (updWifiBlock d m ow).current = m.current ∧
    (updWifiBlock d m ow).energy_total = m.energy_total ∧
    (updWifiBlock d m ow).switch_state = m.switch_state ∧
    (updWifiBlock d m ow).temperature = m.temperature ∧
    (updWifiBlock d m ow).humidity = m.humidity ∧
    (updWifiBlock d m ow).battery_percent = m.battery_percent ∧
    (updWifiBlock d m ow).battery_voltage = m.battery_voltage ∧
    (updWifiBlock d m ow).wifi_rssi = wifiUpd d ow m.wifi_rssi := by
  rcases ow with _ | w <;> exact ⟨rfl, rfl, rfl, rfl, rfl, rfl, rfl, rfl, rfl, rfl⟩

/-- Normal form of the mapper: each gauge family of the result is its
write function applied to the family in the starting state. -/
theorem update_fields (m : ShellyMetrics) (msg : ShellyMessage)
    (t : Option String) :
    (m.update_from_message msg t).power
      = swPowerUpd (resolveDeviceId msg t) msg.params.switch m.power ∧
    (m.update_from_message msg t).voltage
      = swVoltageUpd (resolveDeviceId msg t) msg.params.switch m.voltage ∧
    (m.update_from_message msg t).current
      = swCurrentUpd (resolveDeviceId msg t) msg.params.switch m.current ∧
    (m.update_from_message msg t).energy_total
      = swEnergyUpd (resolveDeviceId msg t) msg.params.switch m.energy_total ∧
    (m.update_from_message msg t).switch_state
      = swStateUpd (resolveDeviceId msg t) msg.params.switch m.switch_state ∧
    (m.update_from_message msg t).temperature
      = sensTempUpd (resolveDeviceId msg t) msg.params.temperature
          (swTempUpd (resolveDeviceId msg t) msg.params.switch m.temperature) ∧
    (m.update_from_message msg t).humidity
      = humUpd (resolveDeviceId msg t) msg.params.humidity m.humidity ∧
    (m.update_from_message msg t).battery_percent
      = batPercentUpd (resolveDeviceId msg t) msg.params.devicepower
          m.battery_percent ∧
    (m.update_from_message msg t).battery_voltage
      = batVoltageUpd (resolveDeviceId msg t) msg.params.devicepower
          m.battery_voltage ∧
    (m.update_from_message msg t).wifi_rssi
      = wifiUpd (resolveDeviceId msg t) msg.params.wifi m.wifi_rssi := by
  simp [ShellyMetrics.update_from_message, updSwitchBlock_fields,
    updSensTempBlock_fields, updHumidityBlock_fields,
    updDevicePowerBlock_fields, updWifiBlock_fields]

/-! ### Overwrite semantics of the write functions -/

theorem GaugeFamily.set_set_self {L : Type} [DecidableEq L]
    (f : GaugeFamily L) (l : L) (v : ℤ) :
    (f.set l v).set l v = f.set l v := by
  funext l'
  by_cases h : l' = l <;> simp [GaugeFamily.set, h]

theorem swPowerUpd_idem (d : String) (osw : Option SwitchData)
    (f : GaugeFamily DeviceLabels) :
    swPowerUpd d osw (swPowerUpd d osw f) = swPowerUpd d osw f := by
  rcases osw with _ | sw
  · rfl
  · rcases hap : sw.apower with _ | p <;>
      simp [swPowerUpd, hap, GaugeFamily.set_set_self]

theorem swVoltageUpd_idem (d : String) (osw : Option SwitchData)
    (f : GaugeFamily DeviceLabels) :
    swVoltageUpd d osw (swVoltageUpd d osw f) = swVoltageUpd d osw f := by
  rcases osw with _ | sw
  · rfl
  · rcases hvo : sw.voltage with _ | v <;>
      simp [swVoltageUpd, hvo, GaugeFamily.set_set_self]

theorem swCurrentUpd_idem (d : String) (osw : Option SwitchData)
    (f : GaugeFamily DeviceLabels) :
    swCurrentUpd d osw (swCurrentUpd d osw f) = swCurrentUpd d osw f := by
  rcases osw with _ | sw
  · rfl
  · rcases hcu : sw.current with _ | c <;>
      simp [swCurrentUpd, hcu, GaugeFamily.set_set_self]

theorem swEnergyUpd_idem (d : String) (osw : Option SwitchData)
    (f : GaugeFamily DeviceLabels) :
    swEnergyUpd d osw (swEnergyUpd d osw f) = swEnergyUpd d osw f := by
  rcases osw with _ | sw <;> simp [swEnergyUpd, GaugeFamily.set_set_self]

theorem swStateUpd_idem (d : String) (osw : Option SwitchData)
    (f : GaugeFamily DeviceLabels) :
    swStateUpd d osw (swStateUpd d osw f) = swStateUpd d osw f := by
  rcases osw with _ | sw
  · rfl
  · rcases hob : sw.output with _ | b <;>
      simp [swStateUpd, hob, GaugeFamily.set_set_self]

theorem humUpd_idem (d : String) (oh : Option HumidityData)
    (f : GaugeFamily DeviceOnlyLabels) :
    humUpd d oh (humUpd d oh f) = humUpd d oh f := by
  rcases oh with _ | hu <;> simp [humUpd, GaugeFamily.set_set_self]

theorem batPercentUpd_idem (d : String) (odp : Option DevicePowerData)
    (f : GaugeFamily DeviceOnlyLabels) :
    batPercentUpd d odp (batPercentUpd d odp f) = batPercentUpd d odp f := by
  rcases odp with _ | ⟨ob⟩
  · rfl
  · rcases ob with _ | b <;> simp [batPercentUpd, GaugeFamily.set_set_self]

theorem batVoltageUpd_idem (d : String) (odp : Option DevicePowerData)
    (f : GaugeFamily DeviceOnlyLabels) :
    batVoltageUpd d odp (batVoltageUpd d odp f) = batVoltageUpd d odp f := by
  rcases odp with _ | ⟨ob⟩
  · rfl
  · rcases ob with _ | b <;> simp [batVoltageUpd, GaugeFamily.set_set_self]

theorem wifiUpd_idem (d : String) (ow : Option WifiData)
    (f : GaugeFamily DeviceOnlyLabels) :
    wifiUpd d ow (wifiUpd d ow f) = wifiUpd d ow f := by
  rcases ow with _ | w <;> simp [wifiUpd, GaugeFamily.set_set_self]

theorem swTempUpd_idem (d : String) (osw : Option SwitchData)
    (f : GaugeFamily DeviceOnlyLabels) :
    swTempUpd d osw (swTempUpd d osw f) = swTempUpd d osw f := by
  rcases osw with _ | sw
  · rfl
  · rcases hte : sw.temperature with _ | te <;>
      simp [swTempUpd, hte, GaugeFamily.set_set_self]

/-- Repeating the two temperature writers (switch-embedded reading,
then sensor reading) is the same as running them once: both only ever
write the cell at `⟨d⟩`. -/
theorem tempWriters_idem (d : String) (ot : Option TemperatureData)
    (osw : Option SwitchData) (f : GaugeFamily DeviceOnlyLabels) :
    sensTempUpd d ot (swTempUpd d osw (sensTempUpd d ot (swTempUpd d osw f)))
      = sensTempUpd d ot (swTempUpd d osw f) := by
  rcases ot with _ | tp
  · simp [sensTempUpd, swTempUpd_idem]
  · funext l
    by_cases hl : l = ⟨d⟩
    · simp [sensTempUpd, GaugeFamily.set, hl]
    · rcases osw with _ | sw
      · simp [sensTempUpd, swTempUpd, GaugeFamily.set, hl]
      · rcases hte : sw.temperature with _ | te <;>
          simp [sensTempUpd, swTempUpd, hte, GaugeFamily.set, hl]

theorem ShellyMetrics.ext_fields (a b : ShellyMetrics)
    (h1 : a.power = b.power) (h2 : a.voltage = b.voltage)
    (h3 : a.current = b.current) (h4 : a.energy_total = b.energy_total)
    (h5 : a.switch_state = b.switch_state)
    (h6 : a.temperature = b.temperature) (h7 : a.humidity = b.humidity)
    (h8 : a.battery_percent = b.battery_percent)
    (h9 : a.battery_voltage = b.battery_voltage)
    (h10 : a.wifi_rssi = b.wifi_rssi) : a = b := by
  cases a; cases b; simp_all

/-- C7: for every message and every optional originating topic, applying
the mapper to the same (message, topic) pair twice in succession leaves
every gauge cell with exactly the same value as applying it once —
updates are last-value-wins overwrites, never accumulation. -/
theorem update_from_message_idempotent (m : ShellyMetrics)
    (msg : ShellyMessage) (t : Option String) :
    (m.update_from_message msg t).update_from_message msg t
      = m.update_from_message msg t := by
  obtain ⟨p2, v2, c2, e2, s2, t2, hu2, bp2, bv2, w2⟩ :=
    update_fields (m.update_from_message msg t) msg t
  obtain ⟨p1, v1, c1, e1, s1, t1, hu1, bp1, bv1, w1⟩ :=
    update_fields m msg t
  refine ShellyMetrics.ext_fields _ _ ?_ ?_ ?_ ?_ ?_ ?_ ?_ ?_ ?_ ?_
  · rw [p2, p1]; exact swPowerUpd_idem _ _ _
  · rw [v2, v1]; exact swVoltageUpd_idem _ _ _
  · rw [c2, c1]; exact swCurrentUpd_idem _ _ _
  · rw [e2, e1]; exact swEnergyUpd_idem _ _ _
  · rw [s2, s1]; exact swStateUpd_idem _ _ _
  · rw [t2, t1]; exact tempWriters_idem _ _ _ _
  · rw [hu2, hu1]; exact humUpd_idem _ _ _
  · rw [bp2, bp1]; exact batPercentUpd_idem _ _ _
  · rw [bv2, bv1]; exact batVoltageUpd_idem _ _ _
  · rw [w2, w1]; exact wifiUpd_idem _ _ _

/-- C8: `extract_device_id` returns exactly the substring after the last
`-` for every input containing at least one `-`, and the whole string
unchanged for every input containing no `-`. -/
theorem extract_device_id_spec :
    (∀ a b : List Char, '-' ∉ b →
      extract_device_id (String.mk (a ++ '-' :: b)) = String.mk b) ∧
    (∀ s : String, '-' ∉ s.data → extract_device_id s = s) := by
  constructor
  · intro a b hb
    show (match afterLastDash (a ++ '-' :: b) with
      | some r => String.mk r
      | none => String.mk (a ++ '-' :: b)) = String.mk b
    rw [afterLastDash_append_cons a b hb]
  · intro s hs
    show (match afterLastDash s.data with
      | some r => String.mk r
      | none => s) = s
    rw [afterLastDash_eq_none s.data hs]

/-- Witness for C8 at the spec's example inputs. -/
theorem extract_device_id_spec_witness :
    extract_device_id (String.mk ("shellyplugus".data ++ '-' :: "d48afc781ad8".data))
      = String.mk "d48afc781ad8".data ∧
    extract_device_id "nodash" = "nodash" :=
  ⟨extract_device_id_spec.1 "shellyplugus".data "d48afc781ad8".data (by decide),
   extract_device_id_spec.2 "nodash" (by decide)⟩

/-! ### Joining the segments recovers the topic -/

def joinSlash : List (List Char) → List Char
  | [] => []
  | [s] => s
  | s :: ss => s ++ '/' :: joinSlash ss

theorem joinSlash_splitSlash (l : List Char) : joinSlash (splitSlash l) = l := by
  induction l with
  | nil => rfl
  | cons c cs ih =>
    rcases hs : splitSlash cs with _ | ⟨s, ss⟩
    · exact absurd hs (splitSlash_ne_nil cs)
    · rw [hs] at ih
      simp only [splitSlash, hs]
      by_cases hc : c = '/'
      · rw [if_pos hc, hc]
        show ([] : List Char) ++ '/' :: joinSlash (s :: ss) = '/' :: cs
        rw [ih]; rfl
      · rw [if_neg hc]
        cases ss with
        | nil =>
          show c :: s = c :: cs
          have : s = cs := ih
          rw [this]
        | cons s2 ss2 =>
          show (c :: s) ++ '/' :: joinSlash (s2 :: ss2) = c :: cs
          have : s ++ '/' :: joinSlash (s2 :: ss2) = cs := ih
          rw [List.cons_append, this]

theorem splitSlash_parts (l : List Char) : ∀ p ∈ splitSlash l, '/' ∉ p := by
  induction l with
  | nil =>
    intro p hp
    simp only [splitSlash, List.mem_singleton] at hp
    subst hp; simp
  | cons c cs ih =>
    intro p hp
    rcases hs : splitSlash cs with _ | ⟨s, ss⟩
    · exact absurd hs (splitSlash_ne_nil cs)
    · rw [hs] at ih
      simp only [splitSlash, hs] at hp
      by_cases hc : c = '/'
      · rw [if_pos hc] at hp
        rcases List.mem_cons.mp hp with h | h
        · subst h; simp
        · exact ih p h
      · rw [if_neg hc] at hp
        rcases List.mem_cons.mp hp with h | h
        · subst h
          intro hmem
          rcases List.mem_cons.mp hmem with h' | h'
          · exact hc h'.symm
          · exact ih s (List.mem_cons_self s ss) h'
        · exact ih p (List.mem_cons_of_mem s h)

/-- C3: `extract_device_from_topic` returns `some d` exactly for topics
of the shape `<prefix>/<prefix>/<deviceName>/events/rpc`, where `d` is
the third-from-last path segment; every other topic yields nothing. -/
theorem extract_device_from_topic_spec (t d : String) :
    extract_device_from_topic t = some d ↔
      ∃ p1 p2 : List Char, '/' ∉ p1 ∧ '/' ∉ p2 ∧ '/' ∉ d.data ∧
        t.data = p1 ++ '/' :: (p2 ++ '/' :: (d.data ++ '/' ::
          ("events".data ++ '/' :: "rpc".data))) := by
  constructor
  · intro h
    rcases hs : splitSlash t.data with _ | ⟨a, tl1⟩
    · exact absurd hs (splitSlash_ne_nil t.data)
    rcases tl1 with _ | ⟨b, tl2⟩
    · rw [show extract_device_from_topic t = none by
        unfold extract_device_from_topic; rw [hs]] at h
      exact absurd h (by simp)
    rcases tl2 with _ | ⟨dd, tl3⟩
    · rw [show extract_device_from_topic t = none by
        unfold extract_device_from_topic; rw [hs]] at h
      exact absurd h (by simp)
    rcases tl3 with _ | ⟨e, tl4⟩
    · rw [show extract_device_from_topic t = none by
        unfold extract_device_from_topic; rw [hs]] at h
      exact absurd h (by simp)
    rcases tl4 with _ | ⟨r, tl5⟩
    · rw [show extract_device_from_topic t = none by
        unfold extract_device_from_topic; rw [hs]] at h
      exact absurd h (by simp)
    rcases tl5 with _ | ⟨x, xs⟩
    · have hval : extract_device_from_topic t =
          if e = "events".data ∧ r = "rpc".data then some (String.mk dd)
          else none := by
        unfold extract_device_from_topic; rw [hs]
      by_cases hc : e = "events".data ∧ r = "rpc".data
      · rw [hval, if_pos hc] at h
        obtain ⟨hce, hcr⟩ := hc
        injection h with hd
        have hjoin := joinSlash_splitSlash t.data
        rw [hs] at hjoin
        have hparts := splitSlash_parts t.data
        refine ⟨a, b, hparts a (by rw [hs]; simp), hparts b (by rw [hs]; simp),
          ?_, ?_⟩
        · rw [← hd]
          exact hparts dd (by rw [hs]; simp)
        · rw [← hjoin, ← hd, hce, hcr]
          rfl
      · rw [hval, if_neg hc] at h
        exact absurd h (by simp)
    · rw [show extract_device_from_topic t = none by
        unfold extract_device_from_topic; rw [hs]] at h
      exact absurd h (by simp)
  · rintro ⟨p1, p2, h1, h2, h3, ht⟩
    unfold extract_device_from_topic
    rw [ht, splitSlash_append_slash p1 _ h1, splitSlash_append_slash p2 _ h2,
      splitSlash_append_slash d.data _ h3,
      splitSlash_append_slash "events".data _ (by decide),
      splitSlash_no_slash "rpc".data (by decide)]
    simp

/-- Witness for C3 at the spec's example topic. -/
theorem extract_device_from_topic_spec_witness :
    extract_device_from_topic "root/family/plugcoffee/events/rpc"
      = some "plugcoffee" :=
  (extract_device_from_topic_spec "root/family/plugcoffee/events/rpc"
      "plugcoffee").mpr
    ⟨"root".data, "family".data, by decide, by decide, by decide, by decide⟩

theorem runTrace_append (xs ys : List IterationOutcome) :
    runTrace (xs ++ ys) = runTrace xs ++ runTrace ys := by
  induction xs with
  | nil => rfl
  | cons o rest ih => simp [runTrace, ih]

/-- C9: after `N` consecutive connection (or subscription) failures the
supervisor has attempted exactly `N` connects, every sleep between them
is the fixed 5-second delay (one per attempt, no exponential backoff),
streaming was never entered, and no failure is fatal: the trace of any
continuation extends the failure trace, the loop restarting from the
Disconnected state. -/
theorem supervisor_reconnect (outs : List IterationOutcome)
    (hfail : ∀ o ∈ outs, o = .connectFail ∨ o = .subscribeFail) :
    (runTrace outs).count .connectAttempt = outs.length ∧
    (runTrace outs).count (.delaySeconds 5) = outs.length ∧
    (∀ n, SupervisorEvent.delaySeconds n ∈ runTrace outs → n = 5) ∧
    SupervisorEvent.streaming ∉ runTrace outs ∧
    (∀ rest, runTrace (outs ++ rest) = runTrace outs ++ runTrace rest) := by
  induction outs with
  | nil =>
    refine ⟨rfl, rfl, ?_, ?_, fun rest => runTrace_append [] rest⟩
    · intro n hn; simp [runTrace] at hn
    · simp [runTrace]
  | cons o rest ih =>
    have ho := hfail o (List.mem_cons_self o rest)
    obtain ⟨ih1, ih2, ih3, ih4, _⟩ :=
      ih (fun o' ho' => hfail o' (List.mem_cons_of_mem o ho'))
    have htrace : runTrace (o :: rest) = runIteration o ++ runTrace rest := rfl
    refine ⟨?_, ?_, ?_, ?_, fun r => runTrace_append (o :: rest) r⟩
    · rcases ho with h | h <;> subst h <;>
        simp [htrace, runIteration, List.count_append, ih1]
    · rcases ho with h | h <;> subst h <;>
        simp [htrace, runIteration, List.count_append, ih2]
    · intro n hn
      rw [htrace, List.mem_append] at hn
      rcases hn with hn | hn
      · rcases ho with h | h <;> subst h <;> simp [runIteration] at hn <;>
          exact hn
      · exact ih3 n hn
    · rw [htrace, List.mem_append]
      rintro (hn | hn)
      · rcases ho with h | h <;> subst h <;> simp [runIteration] at hn
      · exact ih4 hn

/-- Witness for C9: two consecutive failures (one connect failure, one
subscription failure). -/
theorem supervisor_reconnect_witness :
    (runTrace [.connectFail, .subscribeFail]).count .connectAttempt = 2 ∧
    (runTrace [.connectFail, .subscribeFail]).count (.delaySeconds 5) = 2 ∧
    (∀ n, SupervisorEvent.delaySeconds n ∈
      runTrace [.connectFail, .subscribeFail] → n = 5) ∧
    SupervisorEvent.streaming ∉ runTrace [.connectFail, .subscribeFail] ∧
    (∀ rest, runTrace ([.connectFail, .subscribeFail] ++ rest)
      = runTrace [.connectFail, .subscribeFail] ++ runTrace rest) :=
  supervisor_reconnect [.connectFail, .subscribeFail] (by decide)

theorem bind_fun_none {α β : Type} (x : Option α) :
    (x >>= fun _ => (none : Option β)) = none := by cases x <;> rfl

theorem bind_fun_none' {α β : Type} (x : Option α) :
    (x.bind fun _ => (none : Option β)) = none := by cases x <;> rfl

/-- C2: a payload whose switch section (wire key `switch:0`) lacks the
`aenergy` object fails structural decoding: `parse_message` returns the
structural error and the handler leaves every gauge untouched. -/
theorem switch_missing_aenergy_rejected
    (f pf sf : List (String × Json))
    (hparams : fieldLookup "params" f = some (.obj pf))
    (hswitch : fieldLookup "switch:0" pf = some (.obj sf))
    (haenergy : fieldLookup "aenergy" sf = none) :
    decodeShellyMessage (.obj f) = none ∧
    parse_message (.obj f) = .error .JsonError ∧
    ∀ (m : ShellyMetrics) (t : String),
      MqttHandler.handle_message m t (.obj f) = m := by
  have hsw : decodeSwitchData (.obj sf) = none := by
    simp [decodeSwitchData, reqField, haenergy, bind_fun_none, bind_fun_none']
  have hmp : decodeMessageParams (.obj pf) = none := by
    simp [decodeMessageParams, optField, isNull, hswitch, hsw, bind_fun_none,
      bind_fun_none']
  have hdm : decodeShellyMessage (.obj f) = none := by
    simp [decodeShellyMessage, reqField, hparams, hmp, bind_fun_none,
      bind_fun_none']
  have hpm : parse_message (.obj f) = .error .JsonError := by
    simp [parse_message, hdm]
  refine ⟨hdm, hpm, fun m t => ?_⟩
  simp [MqttHandler.handle_message, hpm]

/-- Payload for the C2 witness: a switch section with an `id` but no
`aenergy` object. -/
def c2Fields : List (String × Json) :=
  [("src", .str "shellyplugus-d48afc781ad8"),
   ("method", .str "NotifyStatus"),
   ("params", .obj [("switch:0", .obj [("id", .num 0)])])]

/-- Witness for C2 at a concrete payload. -/
theorem switch_missing_aenergy_rejected_witness :
    decodeShellyMessage (.obj c2Fields) = none ∧
    parse_message (.obj c2Fields) = .error .JsonError ∧
    MqttHandler.handle_message ShellyMetrics.new "a/b/c/events/rpc"
      (.obj c2Fields) = ShellyMetrics.new := by
  obtain ⟨h1, h2, h3⟩ := switch_missing_aenergy_rejected c2Fields
    [("switch:0", .obj [("id", .num 0)])] [("id", .num 0)] rfl rfl rfl
  exact ⟨h1, h2, h3 ShellyMetrics.new "a/b/c/events/rpc"⟩

/-- C5: every JSON value that fails structural decoding makes
`parse_message` return the structural error, and every successfully
decoded message whose method is `NotifyEvent` makes it return the
ignored-method error; in both cases the handler leaves every gauge
untouched (the mapper is never invoked). -/
theorem parse_error_policy (j : Json) :
    (decodeShellyMessage j = none →
      parse_message j = .error .JsonError ∧
      ∀ (m : ShellyMetrics) (t : String),
        MqttHandler.handle_message m t j = m) ∧
    (∀ msg, decodeShellyMessage j = some msg →
      msg.method = .NotifyEvent →
      parse_message j = .error (.IgnoredMessage "NotifyEvent") ∧
      ∀ (m : ShellyMetrics) (t : String),
        MqttHandler.handle_message m t j = m) := by
  constructor
  · intro hd
    have hpm : parse_message j = .error .JsonError := by
      simp [parse_message, hd]
    exact ⟨hpm, fun m t => by simp [MqttHandler.handle_message, hpm]⟩
  · intro msg hd hm
    have hpm : parse_message j = .error (.IgnoredMessage "NotifyEvent") := by
      simp [parse_message, hd, hm]
    exact ⟨hpm, fun m t => by simp [MqttHandler.handle_message, hpm]⟩

/-- Payload for the C5 witness: a structurally valid `NotifyEvent`
message. -/
def c5EventFields : List (String × Json) :=
  [("src", .str "shellyplugus-d48afc781ad8"),
   ("method", .str "NotifyEvent"),
   ("params", .obj [])]

/-- Witness for C5: a malformed value (`null`) and a `NotifyEvent`
message. -/
theorem parse_error_policy_witness :
    (parse_message .null = .error .JsonError ∧
      MqttHandler.handle_message ShellyMetrics.new "x/events/rpc" .null
        = ShellyMetrics.new) ∧
    (parse_message (.obj c5EventFields)
        = .error (.IgnoredMessage "NotifyEvent") ∧
      MqttHandler.handle_message ShellyMetrics.new "x/events/rpc"
        (.obj c5EventFields) = ShellyMetrics.new) := by
  have h1 := (parse_error_policy .null).1 rfl
  have h2 := (parse_error_policy (.obj c5EventFields)).2
    ⟨"shellyplugus-d48afc781ad8", none, .NotifyEvent,
      ⟨none, none, none, none, none, none⟩⟩ rfl rfl
  exact ⟨⟨h1.1, h1.2 _ _⟩, ⟨h2.1, h2.2 _ _⟩⟩

/-! ### Inversion lemmas for the params decoder -/

theorem optField_some_inv {α : Type} (dec : Json → Option α) (key : String)
    (fields : List (String × Json)) (x : α)
    (h : optField dec key fields = some (some x)) :
    ∃ j, fieldLookup key fields = some j ∧ dec j = some x := by
  rcases hl : fieldLookup key fields with _ | j
  · rw [show optField dec key fields = some none by unfold optField; rw [hl]]
      at h
    simp at h
  · have hof : optField dec key fields
        = if isNull j then some none else Option.map some (dec j) := by
      unfold optField; rw [hl]
    rw [hof] at h
    by_cases hn : isNull j
    · rw [if_pos hn] at h; simp at h
    · rw [if_neg hn] at h
      rcases hd : dec j with _ | y
      · rw [hd] at h; simp at h
      · rw [hd] at h
        simp at h
        exact ⟨j, rfl, by rw [hd, h]⟩

theorem decodeMessageParams_switch (pf : List (String × Json))
    (ps : MessageParams) (h : decodeMessageParams (.obj pf) = some ps) :
    optField decodeSwitchData "switch:0" pf = some ps.switch := by
  rcases h1 : optField decodeSwitchData "switch:0" pf with _ | osw
  · simp [decodeMessageParams, h1] at h
  rcases h2 : optField decodeWifiData "wifi" pf with _ | ow
  · simp [decodeMessageParams, h1, h2] at h
  rcases h3 : optField decodeSysData "sys" pf with _ | os
  · simp [decodeMessageParams, h1, h2, h3] at h
  rcases h4 : optField decodeTemperatureData "temperature:0" pf with _ | ot
  · simp [decodeMessageParams, h1, h2, h3, h4] at h
  rcases h5 : optField decodeHumidityData "humidity:0" pf with _ | oh
  · simp [decodeMessageParams, h1, h2, h3, h4, h5] at h
  rcases h6 : optField decodeDevicePowerData "devicepower:0" pf with _ | odp
  · simp [decodeMessageParams, h1, h2, h3, h4, h5, h6] at h
  · simp only [decodeMessageParams, h1, h2, h3, h4, h5, h6, bind,
      Option.some_bind, Option.some.injEq, pure] at h
    subst h
    rfl

/-- C10: the switch sub-record is decoded only from the JSON key
`switch:0` (any other key is ignored, and without a decoded switch
section no per-circuit gauge is updated), and the `switch` label of the
per-circuit gauges comes from the decoded section's `id` field, not
from the JSON key. -/
theorem switch_section_key_and_label :
    (∀ (pf : List (String × Json)) (ps : MessageParams),
      decodeMessageParams (.obj pf) = some ps →
      (fieldLookup "switch:0" pf = none → ps.switch = none) ∧
      (∀ sw, ps.switch = some sw →
        ∃ j, fieldLookup "switch:0" pf = some j ∧
          decodeSwitchData j = some sw)) ∧
    (∀ (m : ShellyMetrics) (msg : ShellyMessage) (t : Option String),
      msg.params.switch = none →
      (m.update_from_message msg t).power = m.power ∧
      (m.update_from_message msg t).voltage = m.voltage ∧
      (m.update_from_message msg t).current = m.current ∧
      (m.update_from_message msg t).energy_total = m.energy_total ∧
      (m.update_from_message msg t).switch_state = m.switch_state) ∧
    (∀ (m : ShellyMetrics) (msg : ShellyMessage) (t : Option String)
      (sw : SwitchData) (b : Bool),
      msg.params.switch = some sw → sw.output = some b →
      (m.update_from_message msg t).switch_state
        ⟨resolveDeviceId msg t, toString sw.id⟩
        = some (if b then 1 else 0)) := by
  refine ⟨?_, ?_, ?_⟩
  · intro pf ps h
    have hopt := decodeMessageParams_switch pf ps h
    constructor
    · intro hnone
      rw [show optField decodeSwitchData "switch:0" pf = some none by
        unfold optField; rw [hnone]] at hopt
      injection hopt with h'
      exact h'.symm
    · intro sw hsw
      rw [hsw] at hopt
      exact optField_some_inv _ _ _ _ hopt
  · intro m msg t h
    obtain ⟨p1, v1, c1, e1, s1, _, _, _, _, _⟩ := update_fields m msg t
    exact ⟨by simp [p1, swPowerUpd, h], by simp [v1, swVoltageUpd, h],
      by simp [c1, swCurrentUpd, h], by simp [e1, swEnergyUpd, h],
      by simp [s1, swStateUpd, h]⟩
  · intro m msg t sw b hsw hb
    obtain ⟨_, _, _, _, s1, _, _, _, _, _⟩ := update_fields m msg t
    rw [s1]
    simp [swStateUpd, hsw, hb, GaugeFamily.set]

/-- Params object for the C10 witness: switch data under the key
`switch:1` only. -/
def c10Params : List (String × Json) :=
  [("switch:1", .obj [("id", .num 1), ("aenergy", .obj [("total", .num 5)])])]

/-- Message for the C10 witness: the decoded switch section has id 7. -/
def c10Msg : ShellyMessage :=
  ⟨"a-b", none, .NotifyStatus,
    ⟨some ⟨7, some true, none, none, none, ⟨0, none, none⟩, none⟩,
     none, none, none, none, none⟩⟩

/-- Witness for C10: `switch:1` data decodes to no switch section, a
message without a switch section leaves the power family untouched, and
a decoded section with id 7 is labelled `switch="7"`. -/
theorem switch_section_key_and_label_witness :
    (⟨none, none, none, none, none, none⟩ : MessageParams).switch = none ∧
    (ShellyMetrics.new.update_from_message
      ⟨"x-y", none, .NotifyStatus, ⟨none, none, none, none, none, none⟩⟩
      none).power = ShellyMetrics.new.power ∧
    (ShellyMetrics.new.update_from_message c10Msg none).switch_state
      ⟨"b", "7"⟩ = some 1 := by
  refine ⟨(switch_section_key_and_label.1 c10Params
      ⟨none, none, none, none, none, none⟩ rfl).1 rfl,
    (switch_section_key_and_label.2.1 ShellyMetrics.new _ none rfl).1, ?_⟩
  have h := switch_section_key_and_label.2.2 ShellyMetrics.new c10Msg none
    ⟨7, some true, none, none, none, ⟨0, none, none⟩, none⟩ true rfl rfl
  rw [show (⟨resolveDeviceId c10Msg none,
    toString (⟨7, some true, none, none, none, ⟨0, none, none⟩, none⟩
      : SwitchData).id⟩ : DeviceLabels) = ⟨"b", "7"⟩ by decide] at h
  simpa using h

/-- Message for C6: switch section with `apower` absent and `voltage`
present (and no other optional field). -/
def c6Msg : ShellyMessage :=
  ⟨"plug-aa", none, .NotifyStatus,
    ⟨some ⟨0, none, none, some (1223/10), none, ⟨3949949/1000, none, none⟩, none⟩,
     none, none, none, none, none⟩⟩

/-- C6 counterexample: a message whose switch section has `apower`
absent and `voltage` present does NOT leave every other gauge of the
label set unchanged — the cumulative-energy total is mandatory and its
gauge is always written when a switch section is present. -/
theorem field_absence_counterexample :
    c6Msg.params.switch.map SwitchData.apower = some none ∧
    c6Msg.params.switch.map SwitchData.voltage = some (some (1223/10 : ℚ)) ∧
    ¬ (ShellyMetrics.new.update_from_message c6Msg none).energy_total
        ⟨"aa", "0"⟩ = ShellyMetrics.new.energy_total ⟨"aa", "0"⟩ := by
  refine ⟨rfl, rfl, ?_⟩
  rw [show (ShellyMetrics.new.update_from_message c6Msg none).energy_total
        ⟨"aa", "0"⟩ = some (f64toInt ((3949949/1000 : ℚ) * 10)) from rfl,
    show f64toInt ((3949949/1000 : ℚ) * 10) = 39499 by norm_num [f64toInt],
    show ShellyMetrics.new.energy_total ⟨"aa", "0"⟩ = none from rfl]
  simp

/-- C6 amended: for every message whose switch section has `apower`
absent, `voltage` present, and the remaining optional electrical fields
(`output`, `current`) absent, the mapper updates exactly the voltage and
energy-total gauges for that label set; power, current and switch-state
are untouched (absent fields are skipped, never defaulted to zero). -/
theorem field_absence_frame (m : ShellyMetrics) (msg : ShellyMessage)
    (t : Option String) (sw : SwitchData) (v : ℚ)
    (hsw : msg.params.switch = some sw)
    (hap : sw.apower = none) (hvo : sw.voltage = some v)
    (hou : sw.output = none) (hcu : sw.current = none) :
    (m.update_from_message msg t).power = m.power ∧
    (m.update_from_message msg t).current = m.current ∧
    (m.update_from_message msg t).switch_state = m.switch_state ∧
    (m.update_from_message msg t).voltage
      = m.voltage.set ⟨resolveDeviceId msg t, toString sw.id⟩
          (f64toInt (v * 10)) ∧
    (m.update_from_message msg t).energy_total
      = m.energy_total.set ⟨resolveDeviceId msg t, toString sw.id⟩
          (f64toInt (sw.aenergy.total * 10)) := by
  obtain ⟨p1, v1, c1, e1, s1, _, _, _, _, _⟩ := update_fields m msg t
  exact ⟨by simp [p1, swPowerUpd, hsw, hap],
    by simp [c1, swCurrentUpd, hsw, hcu],
    by simp [s1, swStateUpd, hsw, hou],
    by simp [v1, swVoltageUpd, hsw, hvo],
    by simp [e1, swEnergyUpd, hsw]⟩

/-- Witness for the amended C6 at a concrete message. -/
theorem field_absence_frame_witness :
    (ShellyMetrics.new.update_from_message c6Msg none).power
      = ShellyMetrics.new.power ∧
    (ShellyMetrics.new.update_from_message c6Msg none).current
      = ShellyMetrics.new.current ∧
    (ShellyMetrics.new.update_from_message c6Msg none).switch_state
      = ShellyMetrics.new.switch_state ∧
    (ShellyMetrics.new.update_from_message c6Msg none).voltage
      = ShellyMetrics.new.voltage.set ⟨"aa", "0"⟩ 1223 ∧
    (ShellyMetrics.new.update_from_message c6Msg none).energy_total
      = ShellyMetrics.new.energy_total.set ⟨"aa", "0"⟩ 39499 := by
  have h := field_absence_frame ShellyMetrics.new c6Msg none
    ⟨0, none, none, some (1223/10), none, ⟨3949949/1000, none, none⟩, none⟩
    (1223/10) rfl rfl rfl rfl rfl
  have hlbl : (⟨resolveDeviceId c6Msg none,
      toString (⟨0, none, none, some (1223/10), none,
        ⟨3949949/1000, none, none⟩, none⟩ : SwitchData).id⟩ : DeviceLabels)
      = ⟨"aa", "0"⟩ := rfl
  have hv : f64toInt ((1223/10 : ℚ) * 10) = 1223 := by norm_num [f64toInt]
  have he : f64toInt ((⟨0, none, none, some (1223/10), none,
      ⟨3949949/1000, none, none⟩, none⟩ : SwitchData).aenergy.total * 10)
      = 39499 := by norm_num [f64toInt]
  refine ⟨h.1, h.2.1, h.2.2.1, ?_, ?_⟩
  · rw [h.2.2.2.1, hlbl, hv]
  · rw [h.2.2.2.2, hlbl, he]

/-- Payload of the C4 scenario (and the C1 failing input). -/
def c4Fields : List (String × Json) :=
  [("src", .str "shellyplugus-d48afc781ad8"),
   ("method", .str "NotifyFullStatus"),
   ("params", .obj [("switch:0", .obj
     [("id", .num 0), ("output", .bool true), ("apower", .num (1255/10)),
      ("voltage", .num (1223/10)), ("current", .num (41/40)),
      ("aenergy", .obj [("total", .num (3949949/1000))])])])]

/-- The decoded form of `c4Fields`. -/
def c4Msg : ShellyMessage :=
  ⟨"shellyplugus-d48afc781ad8", none, .NotifyFullStatus,
    ⟨some ⟨0, some true, some (1255/10), some (1223/10), some (41/40),
       ⟨3949949/1000, none, none⟩, none⟩, none, none, none, none, none⟩⟩

/-- C4: the full-status payload on topic
`root/family/plugcoffee/events/rpc` sets power=125, voltage=1223,
current=1025, energy_total=39499, switch_state=1, all on the label set
`{device:"plugcoffee", switch:"0"}` (and on no other device label), with
every integer conversion truncating toward zero after scaling. -/
theorem full_status_scenario :
    decodeShellyMessage (.obj c4Fields) = some c4Msg ∧
    (ShellyMetrics.new.update_from_message c4Msg
      (some "root/family/plugcoffee/events/rpc")).power
      ⟨"plugcoffee", "0"⟩ = some 125 ∧
    (ShellyMetrics.new.update_from_message c4Msg
      (some "root/family/plugcoffee/events/rpc")).voltage
      ⟨"plugcoffee", "0"⟩ = some 1223 ∧
    (ShellyMetrics.new.update_from_message c4Msg
      (some "root/family/plugcoffee/events/rpc")).current
      ⟨"plugcoffee", "0"⟩ = some 1025 ∧
    (ShellyMetrics.new.update_from_message c4Msg
      (some "root/family/plugcoffee/events/rpc")).energy_total
      ⟨"plugcoffee", "0"⟩ = some 39499 ∧
    (ShellyMetrics.new.update_from_message c4Msg
      (some "root/family/plugcoffee/events/rpc")).switch_state
      ⟨"plugcoffee", "0"⟩ = some 1 ∧
    (ShellyMetrics.new.update_from_message c4Msg
      (some "root/family/plugcoffee/events/rpc")).power
      ⟨"d48afc781ad8", "0"⟩ = none := by
  refine ⟨rfl, ?_, ?_, ?_, ?_, ?_, rfl⟩
  · rw [show (ShellyMetrics.new.update_from_message c4Msg
        (some "root/family/plugcoffee/events/rpc")).power ⟨"plugcoffee", "0"⟩
        = some (f64toInt (1255/10 : ℚ)) from rfl]
    norm_num [f64toInt]
  · rw [show (ShellyMetrics.new.update_from_message c4Msg
        (some "root/family/plugcoffee/events/rpc")).voltage ⟨"plugcoffee", "0"⟩
        = some (f64toInt ((1223/10 : ℚ) * 10)) from rfl]
    norm_num [f64toInt]
  · rw [show (ShellyMetrics.new.update_from_message c4Msg
        (some "root/family/plugcoffee/events/rpc")).current ⟨"plugcoffee", "0"⟩
        = some (f64toInt ((41/40 : ℚ) * 1000)) from rfl]
    norm_num [f64toInt]
  · rw [show (ShellyMetrics.new.update_from_message c4Msg
        (some "root/family/plugcoffee/events/rpc")).energy_total
        ⟨"plugcoffee", "0"⟩
        = some (f64toInt ((3949949/1000 : ℚ) * 10)) from rfl]
    norm_num [f64toInt]
  · rfl

/-- C1: the handler accepts the publish and the payload parses, but
mqtt.rs line 65 invokes the mapper without the originating topic, so
the gauges are labelled with the MAC suffix `d48afc781ad8` instead of
the topic-derived `plugcoffee`; handing the topic to the mapper (as the
two-parameter signature at metrics.rs line 119 and its test expect)
would label them `plugcoffee`. -/
theorem handler_drops_topic :
    parse_message (.obj c4Fields) = .ok c4Msg ∧
    (MqttHandler.handle_message ShellyMetrics.new
      "root/family/plugcoffee/events/rpc" (.obj c4Fields)).power
      ⟨"plugcoffee", "0"⟩ = none ∧
    (MqttHandler.handle_message ShellyMetrics.new
      "root/family/plugcoffee/events/rpc" (.obj c4Fields)).power
      ⟨"d48afc781ad8", "0"⟩ = some 125 ∧
    (ShellyMetrics.new.update_from_message c4Msg
      (some "root/family/plugcoffee/events/rpc")).power
      ⟨"plugcoffee", "0"⟩ = some 125 := by
  refine ⟨rfl, rfl, ?_, ?_⟩
  · rw [show (MqttHandler.handle_message ShellyMetrics.new
        "root/family/plugcoffee/events/rpc" (.obj c4Fields)).power
        ⟨"d48afc781ad8", "0"⟩ = some (f64toInt (1255/10 : ℚ)) from rfl]
    norm_num [f64toInt]
  · rw [show (ShellyMetrics.new.update_from_message c4Msg
        (some "root/family/plugcoffee/events/rpc")).power
        ⟨"plugcoffee", "0"⟩ = some (f64toInt (1255/10 : ℚ)) from rfl]
    norm_num [f64toInt]
